import Mathlib

/-!
Verification of the fin-infra recurring-detection subsystem against its
specification.

The budget gateway and the variable/seasonal LLM detector live in
fin_infra/recurring/detectors_llm.py, which is not present under src/ (only
its unit tests are), so those operations are modelled from the spec
(sections 3, 4.3 and 4.4).  The document stubs and the Teller banking
placeholder are embedded directly from src/src/fin_infra/documents/ and
src/src/fin_infra/providers/banking/teller_client.py.

Monetary amounts are Python floats holding small decimal values; they are
modelled as rationals.
-/

namespace FinInfra

/-- Modelled from the spec: BudgetState of fin_infra.recurring.detectors_llm
(absent from src/), section 3 of the spec: daily and monthly cost counters,
their limits, and the exceeded flag. -/
structure BudgetState where
  daily_cost : ℚ
  monthly_cost : ℚ
  daily_limit : ℚ
  monthly_limit : ℚ
  exceeded : Bool
deriving DecidableEq

/-- Modelled from the spec: a fresh detector starts with both cost counters
at 0 and the exceeded flag clear (test_budget_tracking checks the initial
counters are 0.0). -/
def initBudget (dl ml : ℚ) : BudgetState :=
  ⟨0, 0, dl, ml, false⟩

/-- Modelled from the spec, section 4.4: record_cost(amount) adds the amount
to both counters and sets exceeded to True if either counter now exceeds its
limit. -/
def record_cost (s : BudgetState) (amount : ℚ) : BudgetState :=
  let d := s.daily_cost + amount
  let m := s.monthly_cost + amount
  ⟨d, m, s.daily_limit, s.monthly_limit,
    if d > s.daily_limit ∨ m > s.monthly_limit then true else s.exceeded⟩

/-- Modelled from the spec, section 4.4: reset_daily_budget() zeroes
daily_cost and clears the exceeded flag, leaving monthly_cost untouched. -/
def reset_daily_budget (s : BudgetState) : BudgetState :=
  ⟨0, s.monthly_cost, s.daily_limit, s.monthly_limit, false⟩

/-- Modelled from the spec, section 4.4: reset_monthly_budget() zeroes
monthly_cost and clears the exceeded flag. -/
def reset_monthly_budget (s : BudgetState) : BudgetState :=
  ⟨s.daily_cost, 0, s.daily_limit, s.monthly_limit, false⟩

/-- Snapshot returned by get_budget_status. -/
structure BudgetStatus where
  daily_cost : ℚ
  daily_limit : ℚ
  daily_remaining : ℚ
  monthly_cost : ℚ
  monthly_limit : ℚ
  monthly_remaining : ℚ
  exceeded : Bool
deriving DecidableEq

/-- Modelled from the spec, section 4.4: get_budget_status() returns a
read-only snapshot whose remaining fields are the raw subtractions
limit - cost (not clamped at zero); the budget state itself is returned
unchanged, capturing that the call mutates nothing. -/
def get_budget_status (s : BudgetState) : BudgetStatus × BudgetState :=
  (⟨s.daily_cost, s.daily_limit, s.daily_limit - s.daily_cost,
    s.monthly_cost, s.monthly_limit, s.monthly_limit - s.monthly_cost,
    s.exceeded⟩, s)

/-- Modelled from the spec, section 4.4: the states a detector instance's
budget can reach from the fresh state by record_cost (with the nonnegative
per-call costs the gateway records; the counters are described as
monotonically increasing) and the two reset calls. -/
inductive Reachable (dl ml : ℚ) : BudgetState → Prop
  | init : Reachable dl ml (initBudget dl ml)
  | record (s : BudgetState) (a : ℚ) (ha : 0 ≤ a) (hs : Reachable dl ml s) :
      Reachable dl ml (record_cost s a)
  | rdaily (s : BudgetState) (hs : Reachable dl ml s) :
      Reachable dl ml (reset_daily_budget s)
  | rmonthly (s : BudgetState) (hs : Reachable dl ml s) :
      Reachable dl ml (reset_monthly_budget s)

/-- Modelled from the spec, section 4.3: the per-transaction-group input rows
of the variable detector, a sequence of merchant/amount/date records. Dates
are opaque strings as in the unit-test fixtures. -/
structure Transaction where
  merchant : String
  amount : ℚ
  date : String
deriving DecidableEq

/-- Modelled from the spec, sections 3 and 4.3: the structured result of the
variable detector (VariableRecurringPattern of detectors_llm, absent from
src/): is_recurring flag, optional cadence and expected range, free-text
reasoning, and a confidence score. -/
structure VariableRecurringPattern where
  is_recurring : Bool
  cadence : Option String
  expected_range : Option String
  reasoning : String
  confidence : ℚ
deriving DecidableEq

/-- Modelled from the spec: the Pydantic constructor of
VariableRecurringPattern validates confidence against the closed interval
from 0 to 1 and raises ValueError otherwise (section 3 invariant; the unit
test test_confidence_validation exercises the rejection). -/
def VariableRecurringPattern.validate (is_rec : Bool) (cad rng : Option String)
    (reas : String) (conf : ℚ) : Except String VariableRecurringPattern :=
  if 0 ≤ conf ∧ conf ≤ 1 then
    Except.ok ⟨is_rec, cad, rng, reas, conf⟩
  else
    Except.error "confidence must be between 0.0 and 1.0"

/-- Modelled from the spec, section 4.3: fixed per-call cost of one LLM
detection for the configured Google Gemini model, 0.0001 dollars. -/
def per_call_cost : ℚ := 1 / 10000

/-- Modelled from the spec: state of a VariableDetectorLLM instance: the
configured provider and model plus its own budget counters. -/
structure DetectorState where
  provider : String
  model_name : String
  budget : BudgetState
deriving DecidableEq

/-- Outcome of the one LLM round trip inside detect, supplied as an oracle:
either the structured pattern parsed from the response, or an exception
raised by the call (timeout, malformed response, provider error). -/
inductive LLMOutcome where
  | success (p : VariableRecurringPattern)
  | failure (msg : String)
deriving DecidableEq

/-- Errors detect can raise to its caller; InvalidInput is the ValueError of
the spec's error taxonomy (section 7). -/
inductive DetectError where
  | invalidInput (msg : String)
deriving DecidableEq

/-- Result of one detect call: the returned pattern or raised error, the
detector state after the call, and how many LLM calls were made (0 or 1). -/
structure DetectResult where
  result : Except DetectError VariableRecurringPattern
  state : DetectorState
  llm_calls : ℕ

/-- Modelled from the spec, section 4.3: the low-confidence fallback returned
without calling the LLM once the budget is exceeded. -/
def budgetFallback : VariableRecurringPattern :=
  ⟨false, none, none, "budget exceeded", 1/2⟩

/-- Modelled from the spec, section 4.3: the degrade-to-safe fallback
returned when the LLM call raises; the reasoning carries the error
context. -/
def errorFallback (msg : String) : VariableRecurringPattern :=
  ⟨false, none, none, "LLM error: " ++ msg, 3/10⟩

/-- Modelled from the spec, section 4.3: detect(merchant, transactions).
Empty input raises InvalidInput; if the budget is exceeded the budget
fallback is returned with no LLM call and no cost; otherwise the LLM is
called once: on success its structured result is returned verbatim and the
fixed per-call cost is recorded, on an exception the error fallback is
returned and the exception is swallowed. -/
def detect (st : DetectorState) (_merchant : String) (txs : List Transaction)
    (llm : LLMOutcome) : DetectResult :=
  if txs.isEmpty then
    ⟨Except.error (DetectError.invalidInput "transactions cannot be empty"), st, 0⟩
  else if st.budget.exceeded then
    ⟨Except.ok budgetFallback, st, 0⟩
  else
    match llm with
    | LLMOutcome.success p =>
        ⟨Except.ok p, ⟨st.provider, st.model_name, record_cost st.budget per_call_cost⟩, 1⟩
    | LLMOutcome.failure msg =>
        ⟨Except.ok (errorFallback msg), st, 1⟩

/-- Tests whether an oracle outcome is a successful structured response. -/
def LLMOutcome.isSuccess : LLMOutcome → Bool
  | LLMOutcome.success _ => true
  | LLMOutcome.failure _ => false

/-- One scripted detect call: merchant, transactions, and the oracle outcome
of the LLM round trip should it happen. -/
structure Call where
  merchant : String
  txs : List Transaction
  llm : LLMOutcome
deriving DecidableEq

/-- Runs a sequence of detect calls from a starting detector state, threading
the state and summing the number of LLM calls actually made. -/
def runCalls : DetectorState → List Call → DetectorState × ℕ
  | st, [] => (st, 0)
  | st, c :: rest =>
      let r := detect st c.merchant c.txs c.llm
      let rec' := runCalls r.state rest
      (rec'.1, r.llm_calls + rec'.2)

/-- Python exceptions observable from the embedded fragments. -/
inductive PyError where
  | notImplemented (msg : String)
deriving DecidableEq

/-- Placeholder for fin_infra.documents.models.DocumentAnalysis: the models
module is absent from src/ and the stubs never construct a value, so its
fields are irrelevant; an inhabited carrier keeps the always-raises theorems
non-vacuous. -/
structure DocumentAnalysis where
  summary : String
deriving DecidableEq

/-- Placeholder for fin_infra.documents.models.OCRResult, as above. -/
structure OCRResult where
  text : String
deriving DecidableEq

/-- Placeholder for fin_infra.documents.models.Document, as above. -/
structure Document where
  id : String
deriving DecidableEq

/-- Embeds src/src/fin_infra/documents/analysis.py, analyze_document: the
body is a bare raise of NotImplementedError. -/
def analyze_document (_document_id : String) (_force_refresh : Bool) :
    Except PyError DocumentAnalysis :=
  Except.error (PyError.notImplemented "Document analysis not yet implemented")

/-- Embeds src/src/fin_infra/documents/ocr.py, extract_text: the body is a
bare raise of NotImplementedError. -/
def extract_text (_document_id : String) (_provider : String)
    (_force_refresh : Bool) : Except PyError OCRResult :=
  Except.error (PyError.notImplemented "OCR extraction not yet implemented")

/-- Embeds src/src/fin_infra/documents/storage.py, upload_document: the body
is a bare raise of NotImplementedError. File bytes are a list of byte
values, document type and metadata are opaque. -/
def upload_document (_user_id : String) (_file : List ℕ)
    (_document_type : String) (_filename : String)
    (_metadata : Option (List (String × String))) : Except PyError Document :=
  Except.error (PyError.notImplemented "Document upload not yet implemented")

/-- Embeds src/src/fin_infra/providers/banking/teller_client.py,
TellerBanking: a skeleton client holding only the optional api_key passed to
its constructor. -/
structure TellerBanking where
  api_key : Option String
deriving DecidableEq

/-- Embeds TellerBanking.create_link_token: placeholder returning the empty
string. -/
def TellerBanking.create_link_token (_t : TellerBanking) (_user_id : String) :
    String :=
  ""

/-- Embeds TellerBanking.exchange_public_token: placeholder returning the
empty dict, modelled as an empty association list. -/
def TellerBanking.exchange_public_token (_t : TellerBanking)
    (_public_token : String) : List (String × String) :=
  []

/-- Embeds TellerBanking.accounts: placeholder returning the empty list. -/
def TellerBanking.accounts (_t : TellerBanking) (_access_token : String) :
    List (List (String × String)) :=
  []

/-- Helper invariant: on any reachable budget state, a raised exceeded flag
really does witness an over-limit counter. Proved by induction over the
reachability derivation. -/
theorem reachable_exceeded_over {dl ml : ℚ} {s : BudgetState}
    (h : Reachable dl ml s) :
    s.exceeded = true →
    s.daily_cost > s.daily_limit ∨ s.monthly_cost > s.monthly_limit := by
  induction h with
  | init =>
      intro hex
      simp [initBudget] at hex
  | record s a ha hs ih =>
      intro hex
      by_cases hc : s.daily_cost + a > s.daily_limit ∨ s.monthly_cost + a > s.monthly_limit
      · simpa [record_cost] using hc
      · have hex' : s.exceeded = true := by
          simpa [record_cost, if_neg hc] using hex
        rcases ih hex' with h1 | h1
        · refine Or.inl ?_
          simp only [record_cost]
          linarith
        · refine Or.inr ?_
          simp only [record_cost]
          linarith
  | rdaily s hs ih =>
      intro hex
      simp [reset_daily_budget] at hex
  | rmonthly s hs ih =>
      intro hex
      simp [reset_monthly_budget] at hex

/-- Claim C1, counterexample: the state reached by recording a cost of 3
against limits 1/10 and 2 and then calling reset_daily_budget is reachable,
has monthly_cost 3 above monthly_limit 2, and yet its exceeded flag is
false — so the claimed iff fails on a reachable state. -/
theorem budget_exceeded_iff_counterexample :
    ¬ ∀ (dl ml : ℚ) (s : BudgetState), Reachable dl ml s →
        (s.exceeded = true ↔
          s.daily_cost > s.daily_limit ∨ s.monthly_cost > s.monthly_limit) := by
  intro h
  have hr : Reachable (1/10) 2 (reset_daily_budget (record_cost (initBudget (1/10) 2) 3)) :=
    Reachable.rdaily _ (Reachable.record _ 3 (by norm_num) Reachable.init)
  have hst : reset_daily_budget (record_cost (initBudget (1/10) 2) 3)
      = (⟨0, 3, 1/10, 2, false⟩ : BudgetState) := by
    norm_num [reset_daily_budget, record_cost, initBudget]
  rw [hst] at hr
  have hiff := h (1/10) 2 _ hr
  have hex : (⟨0, 3, 1/10, 2, false⟩ : BudgetState).exceeded = true := by
    refine hiff.mpr (Or.inr ?_)
    norm_num
  simp at hex

/-- Claim C1 (amended): on every reachable budget state, exceeded = true
implies daily_cost > daily_limit or monthly_cost > monthly_limit, and the
full iff holds for any state obtained from a reachable state by a
record_cost step; the iff does not survive the reset calls, which clear the
flag while leaving the other counter possibly over its limit. -/
theorem budget_exceeded_sound {dl ml : ℚ} {s : BudgetState}
    (h : Reachable dl ml s) :
    (s.exceeded = true →
      s.daily_cost > s.daily_limit ∨ s.monthly_cost > s.monthly_limit) ∧
    (∀ a : ℚ, 0 ≤ a →
      ((record_cost s a).exceeded = true ↔
        (record_cost s a).daily_cost > (record_cost s a).daily_limit ∨
        (record_cost s a).monthly_cost > (record_cost s a).monthly_limit)) := by
  refine ⟨reachable_exceeded_over h, ?_⟩
  intro a ha
  constructor
  · intro hex
    by_cases hc : s.daily_cost + a > s.daily_limit ∨ s.monthly_cost + a > s.monthly_limit
    · simpa [record_cost] using hc
    · have hex' : s.exceeded = true := by
        simpa [record_cost, if_neg hc] using hex
      rcases reachable_exceeded_over h hex' with h1 | h1
      · exact absurd (Or.inl (by linarith)) hc
      · exact absurd (Or.inr (by linarith)) hc
  · intro hc
    have hc' : s.daily_cost + a > s.daily_limit ∨ s.monthly_cost + a > s.monthly_limit := by
      simpa [record_cost] using hc
    simp [record_cost, if_pos hc']

/-- Claim C1, witness: the amended soundness theorem applied to the concrete
reachable state reached by one record_cost call of 3 against limits 1/10
and 2, whose exceeded flag is set. -/
theorem budget_exceeded_sound_witness :
    (record_cost (initBudget (1/10) 2) 3).daily_cost
        > (record_cost (initBudget (1/10) 2) 3).daily_limit ∨
    (record_cost (initBudget (1/10) 2) 3).monthly_cost
        > (record_cost (initBudget (1/10) 2) 3).monthly_limit :=
  (budget_exceeded_sound (Reachable.record _ 3 (by norm_num) Reachable.init)).1
    (by norm_num [record_cost, initBudget])

/-- Claim C2: on non-empty input the LLM is invoked exactly when the
exceeded flag is clear at entry; with the flag set, detect returns the
budget fallback (is_recurring false, confidence 1/2, reasoning naming the
budget) with the state untouched and no LLM call; with the flag clear and a
successful LLM round trip, detect returns the LLM pattern verbatim and
records the per-call cost — with no proviso that the new counters stay
under their limits, so the call that overshoots still completes and only
the following call is gated. -/
theorem detect_budget_gate (st : DetectorState) (m : String)
    (txs : List Transaction) (llm : LLMOutcome) (hne : txs ≠ []) :
    ((detect st m txs llm).llm_calls = 0 ↔ st.budget.exceeded = true) ∧
    (st.budget.exceeded = true →
      detect st m txs llm
        = ⟨Except.ok ⟨false, none, none, "budget exceeded", 1/2⟩, st, 0⟩) ∧
    (st.budget.exceeded = false → ∀ p, llm = LLMOutcome.success p →
      detect st m txs llm
        = ⟨Except.ok p,
           ⟨st.provider, st.model_name, record_cost st.budget per_call_cost⟩, 1⟩) := by
  cases txs with
  | nil => exact absurd rfl hne
  | cons t ts =>
      refine ⟨?_, ?_, ?_⟩
      · cases hex : st.budget.exceeded <;> cases llm <;> simp [detect, hex]
      · intro hex
        cases llm <;> simp [detect, hex, budgetFallback]
      · intro hex p hp
        subst hp
        simp [detect, hex]

/-- Claim C2, witness: with the exceeded flag set the concrete call makes no
LLM call, and with the flag clear but the daily counter already past its
limit the concrete call still returns the LLM pattern. -/
theorem detect_budget_gate_witness :
    (detect ⟨"google", "gemini-2.0-flash-exp", ⟨0, 0, 1/10, 2, true⟩⟩ "Test"
        [⟨"Test", 50, "2024-01-15"⟩] (LLMOutcome.failure "boom")).llm_calls = 0 ∧
    (detect ⟨"google", "gemini-2.0-flash-exp", ⟨21/200, 21/200, 1/10, 2, false⟩⟩ "Test"
        [⟨"Test", 50, "2024-01-15"⟩]
        (LLMOutcome.success ⟨true, some "monthly", some "$50", "t", 17/20⟩)).result
      = Except.ok ⟨true, some "monthly", some "$50", "t", 17/20⟩ := by
  constructor
  · exact ((detect_budget_gate _ "Test" _ _ (by simp)).1).mpr rfl
  · have h := (detect_budget_gate
        ⟨"google", "gemini-2.0-flash-exp", ⟨21/200, 21/200, 1/10, 2, false⟩⟩ "Test"
        [⟨"Test", 50, "2024-01-15"⟩]
        (LLMOutcome.success ⟨true, some "monthly", some "$50", "t", 17/20⟩)
        (by simp)).2.2 rfl _ rfl
    rw [h]

/-- Claim C3: when the LLM round trip raises, detect never surfaces an
error on non-empty input, and (whenever the LLM was actually reachable,
i.e. the budget flag was clear) returns the error fallback: is_recurring
false, confidence 3/10, reasoning carrying the error context, budget
untouched. -/
theorem detect_llm_error_degrades (st : DetectorState) (m : String)
    (txs : List Transaction) (msg : String) (hne : txs ≠ []) :
    (∀ e, (detect st m txs (LLMOutcome.failure msg)).result ≠ Except.error e) ∧
    (st.budget.exceeded = false →
      detect st m txs (LLMOutcome.failure msg)
        = ⟨Except.ok (errorFallback msg), st, 1⟩) ∧
    errorFallback msg = ⟨false, none, none, "LLM error: " ++ msg, 3/10⟩ := by
  cases txs with
  | nil => exact absurd rfl hne
  | cons t ts =>
      refine ⟨?_, ?_, rfl⟩
      · intro e
        cases hex : st.budget.exceeded <;> simp [detect, hex]
      · intro hex
        simp [detect, hex]

/-- Claim C3, witness: a concrete failing LLM call degrades to the 3/10
fallback carrying the timeout message. -/
theorem detect_llm_error_degrades_witness :
    detect ⟨"google", "gemini-2.0-flash-exp", initBudget (1/10) 2⟩ "Test"
        [⟨"Test", 50, "2024-01-15"⟩] (LLMOutcome.failure "LLM timeout")
      = ⟨Except.ok (errorFallback "LLM timeout"),
         ⟨"google", "gemini-2.0-flash-exp", initBudget (1/10) 2⟩, 1⟩ :=
  (detect_llm_error_degrades ⟨"google", "gemini-2.0-flash-exp", initBudget (1/10) 2⟩
      "Test" [⟨"Test", 50, "2024-01-15"⟩] "LLM timeout" (by simp)).2.1 rfl

/-- Claim C4: calling detect with an empty transaction list raises
InvalidInput with the message "transactions cannot be empty", leaves the
state untouched, and makes no LLM call, whatever the merchant and whatever
the LLM oracle would have answered. -/
theorem detect_empty_raises (st : DetectorState) (m : String) (llm : LLMOutcome) :
    detect st m [] llm
      = ⟨Except.error (DetectError.invalidInput "transactions cannot be empty"), st, 0⟩ := by
  cases llm <;> rfl

/-- Helper: a single detect call makes at most one LLM call. -/
theorem detect_llm_calls_le (st : DetectorState) (m : String)
    (txs : List Transaction) (llm : LLMOutcome) :
    (detect st m txs llm).llm_calls ≤ 1 := by
  cases txs with
  | nil => simp [detect]
  | cons t ts =>
      cases hex : st.budget.exceeded <;> cases llm <;> simp [detect, hex]

/-- Helper: a run of detect calls makes at most one LLM call per scripted
call. -/
theorem runCalls_count_le (calls : List Call) :
    ∀ st : DetectorState, (runCalls st calls).2 ≤ calls.length := by
  induction calls with
  | nil => intro st; simp [runCalls]
  | cons c rest ih =>
      intro st
      have h1 := detect_llm_calls_le st c.merchant c.txs c.llm
      have h2 := ih (detect st c.merchant c.txs c.llm).state
      simp only [runCalls, List.length_cons]
      omega

/-- Helper: a successful detect call that did reach the LLM records exactly
the per-call cost against the budget. -/
theorem detect_success_budget (st : DetectorState) (m : String)
    (txs : List Transaction) (p : VariableRecurringPattern)
    (h1 : (detect st m txs (LLMOutcome.success p)).llm_calls = 1) :
    (detect st m txs (LLMOutcome.success p)).state.budget
      = record_cost st.budget per_call_cost := by
  cases txs with
  | nil => simp [detect] at h1
  | cons t ts =>
      cases hex : st.budget.exceeded
      · simp [detect, hex]
      · simp [detect, hex] at h1

/-- Claim C5: starting from a fresh detector, a sequence of N scripted
detect calls whose LLM outcomes are all successes and which all actually
reached the LLM (N recorded LLM calls) leaves daily_cost and monthly_cost
both at exactly N times the fixed per-call cost, which for the configured
Google Gemini model is 0.0001. -/
theorem budget_monotone (prov mname : String) (dl ml : ℚ) (calls : List Call)
    (hsucc : ∀ c ∈ calls, c.llm.isSuccess = true)
    (hall : (runCalls ⟨prov, mname, initBudget dl ml⟩ calls).2 = calls.length) :
    (runCalls ⟨prov, mname, initBudget dl ml⟩ calls).1.budget.daily_cost
        = (calls.length : ℚ) * per_call_cost ∧
    (runCalls ⟨prov, mname, initBudget dl ml⟩ calls).1.budget.monthly_cost
        = (calls.length : ℚ) * per_call_cost ∧
    per_call_cost = 1/10000 := by
  have aux : ∀ (cs : List Call) (st : DetectorState),
      (∀ c ∈ cs, c.llm.isSuccess = true) →
      (runCalls st cs).2 = cs.length →
      (runCalls st cs).1.budget.daily_cost
          = st.budget.daily_cost + (cs.length : ℚ) * per_call_cost ∧
      (runCalls st cs).1.budget.monthly_cost
          = st.budget.monthly_cost + (cs.length : ℚ) * per_call_cost := by
    intro cs
    induction cs with
    | nil => intro st _ _; simp [runCalls]
    | cons c rest ih =>
        intro st hs hcount
        obtain ⟨p, hp⟩ : ∃ p, c.llm = LLMOutcome.success p := by
          have := hs c (List.mem_cons_self c rest)
          cases hllm : c.llm with
          | success q => exact ⟨q, rfl⟩
          | failure msg => rw [hllm] at this; simp [LLMOutcome.isSuccess] at this
        have hle1 := detect_llm_calls_le st c.merchant c.txs c.llm
        have hle2 := runCalls_count_le rest (detect st c.merchant c.txs c.llm).state
        have hsplit : (runCalls st (c :: rest)).2
            = (detect st c.merchant c.txs c.llm).llm_calls
              + (runCalls (detect st c.merchant c.txs c.llm).state rest).2 := rfl
        rw [hsplit, List.length_cons] at hcount
        have hone : (detect st c.merchant c.txs c.llm).llm_calls = 1 := by omega
        have hcnt : (runCalls (detect st c.merchant c.txs c.llm).state rest).2
            = rest.length := by omega
        have hbud : (detect st c.merchant c.txs c.llm).state.budget
            = record_cost st.budget per_call_cost := by
          rw [hp] at hone ⊢
          exact detect_success_budget st c.merchant c.txs p hone
        have hrest := ih (detect st c.merchant c.txs c.llm).state
          (fun c' hc' => hs c' (List.mem_cons_of_mem c hc')) hcnt
        have hfin : (runCalls st (c :: rest)).1
            = (runCalls (detect st c.merchant c.txs c.llm).state rest).1 := rfl
        rw [hfin]
        rw [hrest.1, hrest.2, hbud]
        simp only [record_cost, List.length_cons]
        push_cast
        constructor <;> ring
  have h := aux calls ⟨prov, mname, initBudget dl ml⟩ hsucc hall
  refine ⟨?_, ?_, rfl⟩
  · rw [h.1]; simp [initBudget]
  · rw [h.2]; simp [initBudget]

/-- Claim C5, witness: two concrete successful calls from a fresh detector
with limits 1/10 and 2 leave daily_cost at exactly 2 times the per-call
cost. -/
theorem budget_monotone_witness :
    (runCalls ⟨"google", "gemini-2.0-flash-exp", initBudget (1/10) 2⟩
        [⟨"A", [⟨"A", 50, "2024-01-15"⟩],
          LLMOutcome.success ⟨true, some "monthly", some "$50", "t", 17/20⟩⟩,
         ⟨"B", [⟨"B", 50, "2024-02-15"⟩],
          LLMOutcome.success ⟨true, some "monthly", some "$50", "t", 17/20⟩⟩]).1.budget.daily_cost
      = 2 * per_call_cost := by
  have h := budget_monotone "google" "gemini-2.0-flash-exp" (1/10) 2
      [⟨"A", [⟨"A", 50, "2024-01-15"⟩],
        LLMOutcome.success ⟨true, some "monthly", some "$50", "t", 17/20⟩⟩,
       ⟨"B", [⟨"B", 50, "2024-02-15"⟩],
        LLMOutcome.success ⟨true, some "monthly", some "$50", "t", 17/20⟩⟩]
      (by intro c hc; fin_cases hc <;> rfl)
      (by norm_num [runCalls, detect, record_cost, initBudget, per_call_cost])
  have h1 := h.1
  norm_num at h1 ⊢
  exact h1

/-- Claim C6: get_budget_status reports the two cost counters, the two
limits and the exceeded flag verbatim, computes each remaining field as the
raw subtraction limit minus cost, returns the budget state unchanged, and
after an overshoot the corresponding remaining field is strictly negative
rather than clamped at zero. -/
theorem get_budget_status_spec (s : BudgetState) :
    (get_budget_status s).1
      = ⟨s.daily_cost, s.daily_limit, s.daily_limit - s.daily_cost,
         s.monthly_cost, s.monthly_limit, s.monthly_limit - s.monthly_cost,
         s.exceeded⟩ ∧
    (get_budget_status s).2 = s ∧
    (s.daily_cost > s.daily_limit → (get_budget_status s).1.daily_remaining < 0) ∧
    (s.monthly_cost > s.monthly_limit → (get_budget_status s).1.monthly_remaining < 0) := by
  refine ⟨rfl, rfl, ?_, ?_⟩
  · intro h
    simp only [get_budget_status]
    linarith
  · intro h
    simp only [get_budget_status]
    linarith

/-- Claim C6, witness: on the concrete overshot state with monthly_cost 3
against monthly_limit 2 the snapshot's monthly_remaining is negative. -/
theorem get_budget_status_spec_witness :
    (get_budget_status ⟨0, 3, 1/10, 2, true⟩).1.monthly_remaining < 0 :=
  (get_budget_status_spec ⟨0, 3, 1/10, 2, true⟩).2.2.2 (by norm_num)

/-- Claim C7: reset_daily_budget zeroes daily_cost and clears the exceeded
flag while leaving monthly_cost and both limits unchanged, and symmetrically
reset_monthly_budget zeroes monthly_cost and clears the flag while leaving
daily_cost and both limits unchanged. -/
theorem reset_budget_frame (s : BudgetState) :
    (reset_daily_budget s).daily_cost = 0 ∧
    (reset_daily_budget s).exceeded = false ∧
    (reset_daily_budget s).monthly_cost = s.monthly_cost ∧
    (reset_daily_budget s).daily_limit = s.daily_limit ∧
    (reset_daily_budget s).monthly_limit = s.monthly_limit ∧
    (reset_monthly_budget s).monthly_cost = 0 ∧
    (reset_monthly_budget s).exceeded = false ∧
    (reset_monthly_budget s).daily_cost = s.daily_cost ∧
    (reset_monthly_budget s).daily_limit = s.daily_limit ∧
    (reset_monthly_budget s).monthly_limit = s.monthly_limit :=
  ⟨rfl, rfl, rfl, rfl, rfl, rfl, rfl, rfl, rfl, rfl⟩

/-- Claim C8: the validating constructor accepts exactly the confidences in
the closed unit interval (so constructing with 3/2 is rejected with a
ValueError), and every pattern detect emits — fallbacks included — has its
confidence in the unit interval, provided the structured LLM response
itself was schema-validated. -/
theorem confidence_in_unit_interval :
    (∀ (b : Bool) (cad rng : Option String) (reas : String) (conf : ℚ)
        (p : VariableRecurringPattern),
        VariableRecurringPattern.validate b cad rng reas conf = Except.ok p →
        0 ≤ p.confidence ∧ p.confidence ≤ 1) ∧
    VariableRecurringPattern.validate true (some "monthly") (some "$50") "test" (3/2)
      = Except.error "confidence must be between 0.0 and 1.0" ∧
    (∀ (st : DetectorState) (m : String) (txs : List Transaction)
        (llm : LLMOutcome) (p : VariableRecurringPattern),
        (∀ q, llm = LLMOutcome.success q → 0 ≤ q.confidence ∧ q.confidence ≤ 1) →
        (detect st m txs llm).result = Except.ok p →
        0 ≤ p.confidence ∧ p.confidence ≤ 1) := by
  refine ⟨?_, ?_, ?_⟩
  · intro b cad rng reas conf p h
    by_cases hc : 0 ≤ conf ∧ conf ≤ 1
    · have : p = ⟨b, cad, rng, reas, conf⟩ := by
        simpa [VariableRecurringPattern.validate, if_pos hc] using h.symm
      rw [this]
      exact hc
    · simp [VariableRecurringPattern.validate, if_neg hc] at h
  · norm_num [VariableRecurringPattern.validate]
  · intro st m txs llm p hq h
    cases txs with
    | nil => simp [detect] at h
    | cons t ts =>
        cases hex : st.budget.exceeded
        · cases llm with
          | success q =>
              have hpq : p = q := by simpa [detect, hex] using h.symm
              rw [hpq]
              exact hq q rfl
          | failure msg =>
              have hpf : p = errorFallback msg := by
                simpa [detect, hex] using h.symm
              rw [hpf]
              norm_num [errorFallback]
        · have hpb : p = budgetFallback := by
            cases llm <;> simpa [detect, hex] using h.symm
          rw [hpb]
          norm_num [budgetFallback]

/-- Claim C8, witness: the validating constructor applied at confidence
17/20 yields a pattern whose confidence lies in the unit interval. -/
theorem confidence_in_unit_interval_witness :
    (0 : ℚ) ≤ (⟨true, some "monthly", some "$50", "test", 17/20⟩ :
        VariableRecurringPattern).confidence ∧
    (⟨true, some "monthly", some "$50", "test", 17/20⟩ :
        VariableRecurringPattern).confidence ≤ 1 :=
  confidence_in_unit_interval.1 true (some "monthly") (some "$50") "test" (17/20) _
    (by norm_num [VariableRecurringPattern.validate])

/-- Claim C9: the document-processing operations are unimplemented stubs;
for every input each of analyze_document, extract_text and upload_document
raises NotImplementedError with its fixed message and has no other
effect. -/
theorem document_stubs_raise :
    (∀ (did : String) (fr : Bool),
        analyze_document did fr
          = Except.error (PyError.notImplemented "Document analysis not yet implemented")) ∧
    (∀ (did prov : String) (fr : Bool),
        extract_text did prov fr
          = Except.error (PyError.notImplemented "OCR extraction not yet implemented")) ∧
    (∀ (uid : String) (file : List ℕ) (dt fn : String)
        (meta : Option (List (String × String))),
        upload_document uid file dt fn meta
          = Except.error (PyError.notImplemented "Document upload not yet implemented")) :=
  ⟨fun _ _ => rfl, fun _ _ _ => rfl, fun _ _ _ _ _ => rfl⟩

/-- Claim C10: every TellerBanking instance, with or without an api_key,
returns the fixed empty values from its three operations: the empty string
from create_link_token, the empty dict from exchange_public_token and the
empty list from accounts; being total functions they never raise. -/
theorem teller_placeholder_empty (t : TellerBanking) (u p a : String) :
    t.create_link_token u = "" ∧
    t.exchange_public_token p = [] ∧
    t.accounts a = [] :=
  ⟨rfl, rfl, rfl⟩

end FinInfra
